import Mathlib

/-!
Verification of the catalog service backend (`src/main.py`).

The service exposes product records from a schemaless document store over
HTTP: identifier normalization (`_to_id_str`), defensive field defaulting
(`_format_product`), lazy demo seeding (`list_products`), CRUD endpoints
(`create_product`, `get_product`) and a checkout total stub (`checkout`).

Embedding choices:
* Raw store documents are association lists from field name to a dynamic
  `Value` (string, number, boolean, null, or a native store identifier).
  Python dict operations (`get`, `pop`, assignment, `setdefault`) are
  modelled key-based on these lists.
* Python numbers (int and float alike) are modelled as exact rationals.
* The document store (`database.py`) and the `Product` pydantic schema
  (`schemas.py`) are not part of the source tree; they are modelled from
  the spec where noted.
* The native identifier (`bson.ObjectId`) is modelled as a 96-bit natural
  number whose canonical string form is its 24-digit hexadecimal
  rendering, which is the documented external format of the identifier.
* Endpoint failures (`HTTPException`, pydantic `ValidationError`) are
  modelled with an explicit error type via `Except` / `Option`.
-/

/-- A dynamic value stored in a schemaless document field. -/
inductive Value where
  | str : String → Value
  | num : ℚ → Value
  | bool : Bool → Value
  | null : Value
  | oid : Nat → Value
deriving DecidableEq, Repr

/-- A raw document: an association list from field names to values
(Python dict; keys are unique in practice, all operations are key-based). -/
abbrev Doc := List (String × Value)

/-- Python `d.get(k)`: first binding of key `k`, if any. -/
def Doc.get : Doc → String → Option Value
  | [], _ => none
  | (k', v) :: rest, k => if k' = k then some v else Doc.get rest k

/-- Python `d.pop(k)` (the removal part): drop the binding of key `k`. -/
def Doc.erase : Doc → String → Doc
  | [], _ => []
  | (k', v) :: rest, k =>
      if k' = k then Doc.erase rest k else (k', v) :: Doc.erase rest k

/-- Python `d[k] = v`: replace the binding in place, or append it. -/
def Doc.set : Doc → String → Value → Doc
  | [], k, v => [(k, v)]
  | (k', w) :: rest, k, v =>
      if k' = k then (k, v) :: rest else (k', w) :: Doc.set rest k v

/-- Python `d.setdefault(k, v)`: bind `k` to `v` only when `k` is absent
(an existing binding is kept even when its value is falsy or `None`). -/
def Doc.setdefault (d : Doc) (k : String) (v : Value) : Doc :=
  if (d.get k).isSome then d else d ++ [(k, v)]

/-- Hexadecimal digit character for `n < 16` (lowercase, as rendered by
the native identifier's string form). -/
def hexChar : Nat → Char
  | 0 => '0' | 1 => '1' | 2 => '2' | 3 => '3'
  | 4 => '4' | 5 => '5' | 6 => '6' | 7 => '7'
  | 8 => '8' | 9 => '9' | 10 => 'a' | 11 => 'b'
  | 12 => 'c' | 13 => 'd' | 14 => 'e' | _ => 'f'

/-- Numeric value of a hexadecimal digit character, either case. -/
def hexVal (c : Char) : Option Nat :=
  if '0' ≤ c ∧ c ≤ '9' then some (c.toNat - '0'.toNat)
  else if 'a' ≤ c ∧ c ≤ 'f' then some (c.toNat - 'a'.toNat + 10)
  else if 'A' ≤ c ∧ c ≤ 'F' then some (c.toNat - 'A'.toNat + 10)
  else none

/-- Exactly `k` hexadecimal digits of `n`, most significant first
(zero-padded). -/
def toHexDigits : Nat → Nat → List Char
  | 0, _ => []
  | k + 1, n => toHexDigits k (n / 16) ++ [hexChar (n % 16)]

/-- Modelled from the spec: the native store identifier (`bson.ObjectId`,
not in `src/`) is an opaque 12-byte token whose canonical string
representation is its 24-digit hexadecimal rendering. -/
def toHex24 (n : Nat) : String := ⟨toHexDigits 24 n⟩

/-- Left-to-right accumulation of hexadecimal digits; `none` on the first
character that is not a hexadecimal digit. -/
def parseHexAux : Nat → List Char → Option Nat
  | acc, [] => some acc
  | acc, c :: cs =>
      match hexVal c with
      | none => none
      | some v => parseHexAux (acc * 16 + v) cs

/-- Modelled from the spec: the reverse conversion attempted by
`ObjectId(product_id)` (not in `src/`) — a string is a valid native
identifier exactly when it is 24 hexadecimal digits; the constructor
raises (here: `none`) otherwise. -/
def parseOid (s : String) : Option Nat :=
  if s.length = 24 then parseHexAux 0 s.data else none

/-- Python `str(v)` as used on identifier values; only the `oid` case is
exercised by the source (`str(d.pop("_id"))`), the other renderings are
inessential approximations of Python's string conversion. -/
def strOfValue : Value → String
  | .str s => s
  | .num q => toString q.num ++ (if q.den = 1 then "" else "/" ++ toString q.den)
  | .bool b => if b then "True" else "False"
  | .null => "None"
  | .oid n => toHex24 n

/-- Function `_to_id_str` from `src/main.py`: a falsy (empty) document passes
through; otherwise, when `_id` is present and not `None`, it is removed
and `id` is bound to its string form. -/
def toIdStr (doc : Doc) : Doc :=
  if doc = [] then doc
  else
    match doc.get "_id" with
    | none => doc
    | some .null => doc
    | some v => (doc.erase "_id").set "id" (.str (strOfValue v))

/-- The typed `ProductOut` pydantic model from `src/main.py`. -/
structure ProductOut where
  id : String
  title : String
  price : ℚ
  category : String
  description : Option String
  image : Option String
  in_stock : Bool
deriving DecidableEq, Repr

/-- Pydantic coercion to `str`. -/
def asStr : Value → Option String
  | .str s => some s
  | _ => none

/-- Pydantic coercion to `float` (Python ints and floats are both `num`). -/
def asNum : Value → Option ℚ
  | .num q => some q
  | _ => none

/-- Pydantic coercion to `Optional[str]`. -/
def asOptStr : Value → Option (Option String)
  | .str s => some (some s)
  | .null => some none
  | _ => none

/-- Pydantic coercion to `bool`. -/
def asBool : Value → Option Bool
  | .bool b => some b
  | _ => none

/-- Pydantic validation `ProductOut(**d)` of a document against the
`ProductOut` model — every field must be present and of the declared
type; extra keys are ignored; `none` models a `ValidationError`. -/
def coerceProduct (d : Doc) : Option ProductOut :=
  ((d.get "id").bind asStr).bind fun id =>
  ((d.get "title").bind asStr).bind fun title =>
  ((d.get "price").bind asNum).bind fun price =>
  ((d.get "category").bind asStr).bind fun category =>
  ((d.get "description").bind asOptStr).bind fun description =>
  ((d.get "image").bind asOptStr).bind fun image =>
  ((d.get "in_stock").bind asBool).bind fun in_stock =>
  some ⟨id, title, price, category, description, image, in_stock⟩

/-- The "Ensure fields exist" block of `_format_product` in
`src/main.py`: identifier conversion followed by the six `setdefault`
calls, in source order. -/
def normalizeDoc (doc : Doc) : Doc :=
  ((((((toIdStr doc).setdefault "title" (.str "Untitled")).setdefault
    "price" (.num 0)).setdefault "category" (.str "General")).setdefault
    "description" .null).setdefault "image" .null).setdefault
    "in_stock" (.bool true)

/-- Function `_format_product` from `src/main.py`: identifier conversion, then
`setdefault` of each optional field, then `ProductOut(**d)`. -/
def formatProduct (doc : Doc) : Option ProductOut :=
  coerceProduct (normalizeDoc doc)

/-- Errors surfaced at the HTTP boundary: `HTTPException(503)`,
`HTTPException(404)`, and an unhandled internal failure (HTTP 500). -/
inductive Err where
  | serviceUnavailable : Err
  | notFound : Err
  | internal : Err
deriving DecidableEq, Repr

/-- Modelled from the spec: the document store behind `database.py` (not
in `src/`) — a schemaless collection of raw documents (here the single
collection `product` used by the core) together with the source of fresh
native identifiers the store assigns on creation. -/
structure MStore where
  docs : List Doc
  next : Nat
deriving DecidableEq, Repr

/-- Modelled from the spec: `create_document(collection, record)` from
`database.py` (not in `src/`) — inserts the record, the store assigning
it a fresh native identifier under `_id`. -/
def create_document (s : MStore) (d : Doc) : MStore :=
  { docs := s.docs ++ [d.set "_id" (.oid s.next)], next := s.next + 1 }

/-- Modelled from the spec: `get_documents(collection)` from
`database.py` (not in `src/`) — reads the full sequence of raw records. -/
def get_documents (s : MStore) : List Doc := s.docs

/-- Modelled from the spec: `Product(...).model_dump()` for the
`schemas.py` pydantic schema (not in `src/`) — a plain field mapping of
title, description, price, category and in-stock flag. -/
def productSchemaDump (title : String) (description : Option String)
    (price : ℚ) (category : String) (in_stock : Bool) : Doc :=
  [("title", .str title),
   ("description", match description with | some s => .str s | none => .null),
   ("price", .num price),
   ("category", .str category),
   ("in_stock", .bool in_stock)]

/-- First demo record built inside `list_products` in `src/main.py`:
a `ProductSchema(...).model_dump()` then given a hardcoded image. -/
def seed0 : Doc :=
  (productSchemaDump "Carbon Wallet"
    (some "Slim carbon fiber wallet with RFID blocking.") 89 "Accessories"
    true).set "image"
    (.str "https://images.unsplash.com/photo-1585401586477-2a671e1cae4e?ixlib=rb-4.1.0&w=1600&auto=format&fit=crop&q=80")

/-- Second demo record built inside `list_products` in `src/main.py`. -/
def seed1 : Doc :=
  (productSchemaDump "Monochrome Sneakers"
    (some "Minimalist sneakers with premium materials.") 159 "Footwear"
    true).set "image"
    (.str "https://images.unsplash.com/photo-1519741497674-611481863552?q=80&w=1600&auto=format&fit=crop")

/-- Third demo record built inside `list_products` in `src/main.py`. -/
def seed2 : Doc :=
  (productSchemaDump "Minimal Watch"
    (some "Matte black timepiece with sapphire glass.") 129 "Watches"
    true).set "image"
    (.str "https://images.unsplash.com/photo-1524805444758-089113d48a6d?q=80&w=1600&auto=format&fit=crop")

/-- The fixed demo dataset built inside `list_products` in `src/main.py`:
three `ProductSchema(...).model_dump()` records, each then given a
hardcoded `image` reference. -/
def seed : List Doc := [seed0, seed1, seed2]

/-- Endpoint `GET /products` (`list_products` in `src/main.py`): on an
unavailable store (`db is None`) return the empty list; otherwise read
the collection, seed the three demo products when it is empty and
re-read, and return every document normalized (`none` as first component
models a `ValidationError` escaping as HTTP 500). The second component
is the store after the call. -/
def list_products (db : Option MStore) :
    Option (List ProductOut) × Option MStore :=
  match db with
  | none => (some [], none)
  | some s =>
    let docs := get_documents s
    if docs.length = 0 then
      let s' := seed.foldl create_document s
      let docs' := get_documents s'
      (docs'.mapM formatProduct, some s')
    else
      (docs.mapM formatProduct, some s)

/-- The `ProductIn` pydantic model from `src/main.py`. -/
structure ProductIn where
  title : String
  price : ℚ
  category : String
  description : Option String := none
  image : Option String := none
  in_stock : Bool := true
deriving DecidableEq, Repr

/-- Value of an `Optional[str]` field in a dumped document. -/
def optStrVal : Option String → Value
  | some s => .str s
  | none => .null

/-- Endpoint `POST /products` (`create_product` in `src/main.py`):
`HTTPException(503)` on an unavailable store; otherwise dump the schema,
attach the image, insert, re-read the inserted document by its id and
return it normalized. -/
def create_product (db : Option MStore) (product : ProductIn) :
    Except Err (ProductOut × MStore) :=
  match db with
  | none => .error .serviceUnavailable
  | some s =>
    let prod := (productSchemaDump product.title product.description
      product.price product.category product.in_stock).set "image"
      (optStrVal product.image)
    let s' := create_document s prod
    match (get_documents s').find?
        (fun d => d.get "_id" == some (.oid s.next)) with
    | none => .error .internal
    | some doc =>
      match formatProduct doc with
      | some p => .ok (p, s')
      | none => .error .internal

/-- Endpoint `GET /products/{product_id}` (`get_product` in
`src/main.py`): `HTTPException(503)` on an unavailable store; otherwise
attempt the reverse identifier conversion — any failure is swallowed
(`except: doc = None`) — look the record up by native id, answer
`HTTPException(404)` when nothing was found, and return the record
normalized. -/
def get_product (db : Option MStore) (product_id : String) :
    Except Err ProductOut :=
  match db with
  | none => .error .serviceUnavailable
  | some s =>
    let doc :=
      match parseOid product_id with
      | none => none
      | some n =>
          (get_documents s).find? (fun d => d.get "_id" == some (.oid n))
    match doc with
    | none => .error .notFound
    | some d =>
      match formatProduct d with
      | some p => .ok p
      | none => .error .internal

/-- The `CheckoutItem` pydantic model from `src/main.py` (note: no range
constraint is declared on `price` or `qty`). -/
structure CheckoutItem where
  id : String
  title : String
  price : ℚ
  qty : ℤ
deriving DecidableEq, Repr

/-- The `CheckoutRequest` pydantic model from `src/main.py`. -/
structure CheckoutRequest where
  items : List CheckoutItem
  email : Option String := none
deriving DecidableEq, Repr

/-- The response object built by the `checkout` endpoint. -/
structure CheckoutResponse where
  status : String
  message : String
  total : ℚ
  currency : String
  redirect_url : Option String
deriving DecidableEq, Repr

/-- Round half to even to the nearest integer (Python rounding,
idealized over exact rationals). -/
def roundHalfEven (q : ℚ) : ℤ :=
  if q - q.floor < 1/2 then q.floor
  else if q - q.floor > 1/2 then q.floor + 1
  else if q.floor % 2 = 0 then q.floor else q.floor + 1

/-- Python `round(x, 2)`, idealized over exact rationals. -/
def round2 (q : ℚ) : ℚ := (roundHalfEven (q * 100) : ℚ) / 100

/-- Endpoint `POST /checkout` (`checkout` in `src/main.py`): sums
`price * qty` over the submitted items and rounds to two decimals; no
other part of the request is consulted and no failure path exists. -/
def checkout (req : CheckoutRequest) : CheckoutResponse :=
  let total := (req.items.map (fun i => i.price * (i.qty : ℚ))).sum
  { status := "ok"
    message := "Checkout session created"
    total := round2 total
    currency := "USD"
    redirect_url := none }

/-- The spec's checkout formula, written as in section 4.5: `total =
round(Σ price_i × qty_i, 2)` with the sum indexed over the positions of
the ordered item sequence. -/
def specCheckoutTotal (items : List CheckoutItem) : ℚ :=
  round2 (∑ i : Fin items.length, (items.get i).price * ((items.get i).qty : ℚ))

/-- A normalized Product, re-serialized as a raw document (the record as
the API surfaces it in JSON: canonical `id` key, every field present,
nullable fields rendered as null). -/
def ProductOut.toDoc (p : ProductOut) : Doc :=
  [("id", .str p.id), ("title", .str p.title), ("price", .num p.price),
   ("category", .str p.category), ("description", optStrVal p.description),
   ("image", optStrVal p.image), ("in_stock", .bool p.in_stock)]

/-- Progress of one `GET /products` call through its store accesses: not
yet performed the emptiness check, observed empty and about to insert
the seed records, or finished. -/
inductive Phase where
  | idle : Phase
  | needSeed : Phase
  | done : Phase
deriving DecidableEq, Repr

/-- One atomic store access of a `GET /products` call against the shared
store: the emptiness check (`len(get_documents(...)) == 0`) and the seed
insertion are separate steps, exactly the check-then-insert sequence of
`list_products` in `src/main.py`. -/
def callStep (s : MStore) : Phase → MStore × Phase
  | .idle =>
      if (get_documents s).length = 0 then (s, .needSeed) else (s, .done)
  | .needSeed => (seed.foldl create_document s, .done)
  | .done => (s, .done)

/-- Run a schedule of interleaved `GET /products` calls against a shared
store: `ps` holds each call's phase, and the schedule names at each step
which call performs its next atomic store access. -/
def runSched (s : MStore) (ps : List Phase) : List Nat → MStore × List Phase
  | [] => (s, ps)
  | i :: rest =>
      let (s', p') := callStep s (ps.getD i .done)
      runSched s' (ps.set i p') rest

/-! ## Helper lemmas on document operations -/

theorem Doc.get_append (d e : Doc) (k : String) :
    (d ++ e).get k = match d.get k with | some v => some v | none => e.get k := by
  induction d with
  | nil => simp [Doc.get]
  | cons kv rest ih =>
    obtain ⟨k', v⟩ := kv
    by_cases h : k' = k <;> simp [Doc.get, h, ih]

theorem Doc.get_set_ne (d : Doc) (k k' : String) (v : Value) (h : k' ≠ k) :
    (d.set k v).get k' = d.get k' := by
  induction d with
  | nil => simp [Doc.get, Doc.set, Ne.symm h]
  | cons kv rest ih =>
    obtain ⟨k'', w⟩ := kv
    by_cases hk : k'' = k <;> by_cases hk' : k'' = k' <;>
      simp_all [Doc.get, Doc.set, Ne.symm h]

theorem Doc.get_erase_ne (d : Doc) (k k' : String) (h : k' ≠ k) :
    (d.erase k).get k' = d.get k' := by
  induction d with
  | nil => simp [Doc.erase]
  | cons kv rest ih =>
    obtain ⟨k'', w⟩ := kv
    by_cases hk : k'' = k <;> by_cases hk' : k'' = k' <;>
      simp_all [Doc.get, Doc.erase]

theorem Doc.get_setdefault_self (d : Doc) (k : String) (v : Value) :
    (d.setdefault k v).get k = some ((d.get k).getD v) := by
  unfold Doc.setdefault
  cases hg : d.get k with
  | some w => simp [hg]
  | none => simp [hg, Doc.get_append, Doc.get]

theorem Doc.get_setdefault_ne (d : Doc) (k k' : String) (v : Value)
    (h : k' ≠ k) :
    (d.setdefault k v).get k' = d.get k' := by
  unfold Doc.setdefault
  cases hg : d.get k with
  | some w => simp [hg]
  | none =>
    simp only [hg, Option.isSome_none, Bool.false_eq_true, if_false,
      Doc.get_append, Doc.get, Ne.symm h, if_false]
    cases d.get k' <;> rfl

theorem toIdStr_get_ne (doc : Doc) (k : String) (h1 : k ≠ "_id")
    (h2 : k ≠ "id") :
    (toIdStr doc).get k = doc.get k := by
  unfold toIdStr
  by_cases he : doc = []
  · simp [he]
  · simp only [he, if_false]
    cases hg : doc.get "_id" with
    | none => rfl
    | some v =>
      cases v <;>
        simp [Doc.get_set_ne _ _ _ _ h2, Doc.get_erase_ne _ _ _ h1]

theorem normalizeDoc_get_id (doc : Doc) :
    (normalizeDoc doc).get "id" = (toIdStr doc).get "id" := by
  unfold normalizeDoc
  rw [Doc.get_setdefault_ne _ _ _ _ (by decide),
    Doc.get_setdefault_ne _ _ _ _ (by decide),
    Doc.get_setdefault_ne _ _ _ _ (by decide),
    Doc.get_setdefault_ne _ _ _ _ (by decide),
    Doc.get_setdefault_ne _ _ _ _ (by decide),
    Doc.get_setdefault_ne _ _ _ _ (by decide)]

theorem normalizeDoc_get_title (doc : Doc) :
    (normalizeDoc doc).get "title" =
      some ((doc.get "title").getD (.str "Untitled")) := by
  unfold normalizeDoc
  rw [Doc.get_setdefault_ne _ _ _ _ (by decide),
    Doc.get_setdefault_ne _ _ _ _ (by decide),
    Doc.get_setdefault_ne _ _ _ _ (by decide),
    Doc.get_setdefault_ne _ _ _ _ (by decide),
    Doc.get_setdefault_ne _ _ _ _ (by decide),
    Doc.get_setdefault_self, toIdStr_get_ne _ _ (by decide) (by decide)]

theorem normalizeDoc_get_price (doc : Doc) :
    (normalizeDoc doc).get "price" =
      some ((doc.get "price").getD (.num 0)) := by
  unfold normalizeDoc
  rw [Doc.get_setdefault_ne _ _ _ _ (by decide),
    Doc.get_setdefault_ne _ _ _ _ (by decide),
    Doc.get_setdefault_ne _ _ _ _ (by decide),
    Doc.get_setdefault_ne _ _ _ _ (by decide),
    Doc.get_setdefault_self,
    Doc.get_setdefault_ne _ _ _ _ (by decide),
    toIdStr_get_ne _ _ (by decide) (by decide)]

theorem normalizeDoc_get_category (doc : Doc) :
    (normalizeDoc doc).get "category" =
      some ((doc.get "category").getD (.str "General")) := by
  unfold normalizeDoc
  rw [Doc.get_setdefault_ne _ _ _ _ (by decide),
    Doc.get_setdefault_ne _ _ _ _ (by decide),
    Doc.get_setdefault_ne _ _ _ _ (by decide),
    Doc.get_setdefault_self,
    Doc.get_setdefault_ne _ _ _ _ (by decide),
    Doc.get_setdefault_ne _ _ _ _ (by decide),
    toIdStr_get_ne _ _ (by decide) (by decide)]

theorem normalizeDoc_get_description (doc : Doc) :
    (normalizeDoc doc).get "description" =
      some ((doc.get "description").getD .null) := by
  unfold normalizeDoc
  rw [Doc.get_setdefault_ne _ _ _ _ (by decide),
    Doc.get_setdefault_ne _ _ _ _ (by decide),
    Doc.get_setdefault_self,
    Doc.get_setdefault_ne _ _ _ _ (by decide),
    Doc.get_setdefault_ne _ _ _ _ (by decide),
    Doc.get_setdefault_ne _ _ _ _ (by decide),
    toIdStr_get_ne _ _ (by decide) (by decide)]

theorem normalizeDoc_get_image (doc : Doc) :
    (normalizeDoc doc).get "image" =
      some ((doc.get "image").getD .null) := by
  unfold normalizeDoc
  rw [Doc.get_setdefault_ne _ _ _ _ (by decide),
    Doc.get_setdefault_self,
    Doc.get_setdefault_ne _ _ _ _ (by decide),
    Doc.get_setdefault_ne _ _ _ _ (by decide),
    Doc.get_setdefault_ne _ _ _ _ (by decide),
    Doc.get_setdefault_ne _ _ _ _ (by decide),
    toIdStr_get_ne _ _ (by decide) (by decide)]

theorem normalizeDoc_get_in_stock (doc : Doc) :
    (normalizeDoc doc).get "in_stock" =
      some ((doc.get "in_stock").getD (.bool true)) := by
  unfold normalizeDoc
  rw [Doc.get_setdefault_self,
    Doc.get_setdefault_ne _ _ _ _ (by decide),
    Doc.get_setdefault_ne _ _ _ _ (by decide),
    Doc.get_setdefault_ne _ _ _ _ (by decide),
    Doc.get_setdefault_ne _ _ _ _ (by decide),
    Doc.get_setdefault_ne _ _ _ _ (by decide),
    toIdStr_get_ne _ _ (by decide) (by decide)]

theorem asStr_default_spec (o : Option Value) (dflt out : String)
    (h : asStr (o.getD (.str dflt)) = some out) :
    (o = none → out = dflt) ∧ ∀ v, o = some v → v = .str out := by
  cases o with
  | none =>
    simp only [Option.getD_none, asStr, Option.some.injEq] at h
    exact ⟨fun _ => h.symm, fun v hv => nomatch hv⟩
  | some v =>
    refine ⟨(fun hn => nomatch hn), fun w hw => ?_⟩
    obtain rfl : v = w := by cases hw; rfl
    cases v <;> simp [asStr] at h
    rw [h]

theorem asNum_default_spec (o : Option Value) (dflt out : ℚ)
    (h : asNum (o.getD (.num dflt)) = some out) :
    (o = none → out = dflt) ∧ ∀ v, o = some v → v = .num out := by
  cases o with
  | none =>
    simp only [Option.getD_none, asNum, Option.some.injEq] at h
    exact ⟨fun _ => h.symm, fun v hv => nomatch hv⟩
  | some v =>
    refine ⟨(fun hn => nomatch hn), fun w hw => ?_⟩
    obtain rfl : v = w := by cases hw; rfl
    cases v <;> simp [asNum] at h
    rw [h]

theorem asBool_default_spec (o : Option Value) (dflt out : Bool)
    (h : asBool (o.getD (.bool dflt)) = some out) :
    (o = none → out = dflt) ∧ ∀ v, o = some v → v = .bool out := by
  cases o with
  | none =>
    simp only [Option.getD_none, asBool, Option.some.injEq] at h
    exact ⟨fun _ => h.symm, fun v hv => nomatch hv⟩
  | some v =>
    refine ⟨(fun hn => nomatch hn), fun w hw => ?_⟩
    obtain rfl : v = w := by cases hw; rfl
    cases v <;> simp [asBool] at h
    rw [h]

theorem asOptStr_default_spec (o : Option Value) (out : Option String)
    (h : asOptStr (o.getD .null) = some out) :
    (o = none → out = none) ∧ ∀ v, o = some v → asOptStr v = some out := by
  cases o with
  | none =>
    simp only [Option.getD_none, asOptStr, Option.some.injEq] at h
    exact ⟨fun _ => h.symm, fun v hv => nomatch hv⟩
  | some v =>
    refine ⟨(fun hn => nomatch hn), fun w hw => ?_⟩
    obtain rfl : v = w := by cases hw; rfl
    exact h

/-! ## Claim theorems -/

/-- C1: for every raw document accepted by the record normalizer
(`_format_product`), each of the six optional-in-storage fields of the
returned Product carries the documented default exactly when the field
is absent from the document, and otherwise carries the document's value
unchanged — even an explicit falsy value such as the empty string or
`false` (that all six fields are populated is inherent in the typed
`ProductOut` returned). -/
theorem format_product_defaults_iff_absent (doc : Doc) (p : ProductOut)
    (h : formatProduct doc = some p) :
    (doc.get "title" = none → p.title = "Untitled") ∧
    (∀ v, doc.get "title" = some v → v = .str p.title) ∧
    (doc.get "price" = none → p.price = 0) ∧
    (∀ v, doc.get "price" = some v → v = .num p.price) ∧
    (doc.get "category" = none → p.category = "General") ∧
    (∀ v, doc.get "category" = some v → v = .str p.category) ∧
    (doc.get "description" = none → p.description = none) ∧
    (∀ v, doc.get "description" = some v → asOptStr v = some p.description) ∧
    (doc.get "image" = none → p.image = none) ∧
    (∀ v, doc.get "image" = some v → asOptStr v = some p.image) ∧
    (doc.get "in_stock" = none → p.in_stock = true) ∧
    (∀ v, doc.get "in_stock" = some v → v = .bool p.in_stock) := by
  unfold formatProduct coerceProduct at h
  rw [normalizeDoc_get_id, normalizeDoc_get_title, normalizeDoc_get_price,
    normalizeDoc_get_category, normalizeDoc_get_description,
    normalizeDoc_get_image, normalizeDoc_get_in_stock] at h
  simp only [Option.some_bind, Option.bind_eq_some, Option.pure_def,
    Option.some.injEq] at h
  obtain ⟨id, hid, title, htitle, price, hprice, category, hcategory,
    de, hde, im, him, st, hst, hp⟩ := h
  subst hp
  obtain ⟨t1, t2⟩ := asStr_default_spec _ _ _ htitle
  obtain ⟨n1, n2⟩ := asNum_default_spec _ _ _ hprice
  obtain ⟨c1, c2⟩ := asStr_default_spec _ _ _ hcategory
  obtain ⟨d1, d2⟩ := asOptStr_default_spec _ _ hde
  obtain ⟨i1, i2⟩ := asOptStr_default_spec _ _ him
  obtain ⟨b1, b2⟩ := asBool_default_spec _ _ _ hst
  exact ⟨t1, t2, n1, n2, c1, c2, d1, d2, i1, i2, b1, b2⟩

/-- Witness for C1 at a concrete legacy document: `price` is absent and
defaults to `0`, while the explicit empty-string `title` is preserved. -/
theorem format_product_defaults_iff_absent_witness :
    formatProduct
        [("_id", Value.oid 1), ("title", Value.str ""),
         ("in_stock", Value.bool false)] =
      some ⟨toHex24 1, "", 0, "General", none, none, false⟩ ∧
    (ProductOut.mk (toHex24 1) "" 0 "General" none none false).price = 0 ∧
    Value.str "" =
      Value.str (ProductOut.mk (toHex24 1) "" 0 "General" none none false).title := by
  have h := format_product_defaults_iff_absent
    [("_id", Value.oid 1), ("title", Value.str ""),
     ("in_stock", Value.bool false)]
    ⟨toHex24 1, "", 0, "General", none, none, false⟩ (by decide)
  exact ⟨by decide, h.2.2.1 (by decide), h.2.1 (Value.str "") (by decide)⟩

set_option maxHeartbeats 1000000 in
/-- C2: record normalization is idempotent — whenever `_format_product`
returns a Product from a raw document, applying it again to that
Product's own serialized record returns the very same Product. -/
theorem format_product_idempotent (doc : Doc) (p : ProductOut)
    (h : formatProduct doc = some p) :
    formatProduct p.toDoc = some p := by
  obtain ⟨id, title, price, category, de, im, st⟩ := p
  cases de <;> cases im <;> rfl

/-- Witness for C2 at a concrete raw document. -/
theorem format_product_idempotent_witness :
    formatProduct
        (ProductOut.toDoc ⟨toHex24 1, "", 0, "General", none, none, true⟩) =
      some ⟨toHex24 1, "", 0, "General", none, none, true⟩ :=
  format_product_idempotent [("_id", Value.oid 1), ("title", Value.str "")]
    ⟨toHex24 1, "", 0, "General", none, none, true⟩ (by decide)

/-! ## Rounding and checkout -/

theorem rat_floor_eq (q : ℚ) : q.floor = ⌊q⌋ := rfl

theorem roundHalfEven_intCast (n : ℤ) : roundHalfEven (n : ℚ) = n := by
  unfold roundHalfEven
  rw [rat_floor_eq, Int.floor_intCast]
  norm_num

theorem round2_eq_self_of_int (n : ℤ) :
    round2 ((n : ℚ) / 100) = (n : ℚ) / 100 := by
  unfold round2
  have h : ((n : ℚ) / 100) * 100 = (n : ℚ) := by field_simp
  rw [h, roundHalfEven_intCast]

theorem list_map_sum_eq_fin_sum (items : List CheckoutItem) :
    (items.map (fun i => i.price * (i.qty : ℚ))).sum =
      ∑ i : Fin items.length, (items.get i).price * ((items.get i).qty : ℚ) := by
  induction items with
  | nil => simp
  | cons a as ih => simp [Fin.sum_univ_succ, ih]

/-- C3: for every ordered sequence of checkout items, the checkout
endpoint returns exactly the spec's summary — `total` is the two-decimal
rounding of the indexed sum of `price_i * qty_i`, the currency is the
fixed `"USD"` and the redirect url is always null — and on the
documented example `[(price 89, qty 1), (price 159, qty 2)]` the total
is `407.00`. -/
theorem checkout_total_spec :
    (∀ req : CheckoutRequest,
      checkout req =
        { status := "ok", message := "Checkout session created",
          total := specCheckoutTotal req.items, currency := "USD",
          redirect_url := none }) ∧
    (checkout
        ⟨[⟨"1", "Carbon Wallet", 89, 1⟩, ⟨"2", "Monochrome Sneakers", 159, 2⟩],
          none⟩).total = 407 := by
  constructor
  · intro req
    simp only [checkout, specCheckoutTotal, list_map_sum_eq_fin_sum]
  · simp only [checkout, List.map_cons, List.map_nil, List.sum_cons,
      List.sum_nil]
    have hsum : (89 : ℚ) * ((1 : ℤ) : ℚ) + ((159 : ℚ) * ((2 : ℤ) : ℚ) + 0) =
        ((40700 : ℤ) : ℚ) / 100 := by norm_num
    rw [hsum, round2_eq_self_of_int]
    norm_num

/-- C4 counterexample: the claim says a checkout request containing an
item with negative price fails with a `ValidationError` (HTTP 422); in
the code `CheckoutItem` declares no range constraint and `checkout` has
no failure path, so the request with price `-5` is accepted and priced
normally. -/
theorem checkout_negative_price_accepted :
    checkout ⟨[⟨"1", "Bad", -5, 1⟩], none⟩ =
      { status := "ok", message := "Checkout session created",
        total := -5, currency := "USD", redirect_url := none } := by
  simp only [checkout, List.map_cons, List.map_nil, List.sum_cons,
    List.sum_nil]
  have hsum : (-5 : ℚ) * ((1 : ℤ) : ℚ) + 0 = ((-500 : ℤ) : ℚ) / 100 := by
    norm_num
  rw [hsum, round2_eq_self_of_int]
  norm_num

/-- C4 (amended): the checkout endpoint performs no range validation —
a request containing an item with negative price or qty below 1 is
accepted all the same, and the normal summary with the rounded total
over exactly those items is returned instead of any error. -/
theorem checkout_accepts_invalid_items (req : CheckoutRequest)
    (h : ∃ i ∈ req.items, i.price < 0 ∨ i.qty < 1) :
    checkout req =
      { status := "ok", message := "Checkout session created",
        total := round2 ((req.items.map (fun i => i.price * (i.qty : ℚ))).sum),
        currency := "USD", redirect_url := none } := rfl

/-- Witness for C4's amended theorem at the concrete invalid request. -/
theorem checkout_accepts_invalid_items_witness :
    checkout ⟨[⟨"1", "Bad", -5, 1⟩], none⟩ =
      { status := "ok", message := "Checkout session created",
        total := round2
          ((([⟨"1", "Bad", -5, 1⟩] : List CheckoutItem).map
            (fun i => i.price * (i.qty : ℚ))).sum),
        currency := "USD", redirect_url := none } :=
  checkout_accepts_invalid_items ⟨[⟨"1", "Bad", -5, 1⟩], none⟩
    ⟨⟨"1", "Bad", -5, 1⟩, by simp, Or.inl (by norm_num)⟩

/-- C10: the checkout response does not depend on the optional email
field — two requests with the same items and any two email values
produce identical responses. -/
theorem checkout_independent_of_email (items : List CheckoutItem)
    (e1 e2 : Option String) :
    checkout ⟨items, e1⟩ = checkout ⟨items, e2⟩ := rfl

/-! ## Identifier round trip -/

theorem hexVal_hexChar (m : Nat) (h : m < 16) : hexVal (hexChar m) = some m := by
  have hall : ∀ m' < 16, hexVal (hexChar m') = some m' := by decide
  exact hall m h

theorem parseHexAux_append (acc : Nat) (xs ys : List Char) :
    parseHexAux acc (xs ++ ys) =
      match parseHexAux acc xs with
      | none => none
      | some a => parseHexAux a ys := by
  induction xs generalizing acc with
  | nil => simp [parseHexAux]
  | cons c cs ih =>
    simp only [List.cons_append, parseHexAux]
    cases hexVal c <;> simp [ih]

theorem toHexDigits_length (k n : Nat) : (toHexDigits k n).length = k := by
  induction k generalizing n with
  | zero => rfl
  | succ k ih => simp [toHexDigits, ih]

theorem parseHexAux_toHexDigits (k n acc : Nat) (h : n < 16 ^ k) :
    parseHexAux acc (toHexDigits k n) = some (acc * 16 ^ k + n) := by
  induction k generalizing n acc with
  | zero =>
    have h0 : n = 0 := by simpa using h
    subst h0
    simp [toHexDigits, parseHexAux]
  | succ k ih =>
    have hdiv : n / 16 < 16 ^ k := by
      rw [Nat.div_lt_iff_lt_mul (by norm_num)]
      calc n < 16 ^ (k + 1) := h
        _ = 16 ^ k * 16 := by ring
    rw [toHexDigits, parseHexAux_append, ih _ _ hdiv]
    simp only [parseHexAux, hexVal_hexChar _ (Nat.mod_lt _ (by norm_num))]
    congr 1
    calc (acc * 16 ^ k + n / 16) * 16 + n % 16
        = acc * (16 ^ k * 16) + (16 * (n / 16) + n % 16) := by ring
      _ = acc * 16 ^ (k + 1) + n := by rw [Nat.div_add_mod, pow_succ]

/-- C9: round trip of the identifier conversions — for every valid
native identifier (a 12-byte token, so a value below `16 ^ 24`),
rendering it to its canonical string as `_to_id_str` does and parsing
that string back as the lookup endpoint does recovers the identifier. -/
theorem oid_string_roundtrip (n : Nat) (h : n < 16 ^ 24) :
    parseOid (strOfValue (Value.oid n)) = some n := by
  show parseOid (String.mk (toHexDigits 24 n)) = some n
  unfold parseOid
  have hlen : (String.mk (toHexDigits 24 n)).length = 24 := by
    show (toHexDigits 24 n).length = 24
    exact toHexDigits_length 24 n
  rw [hlen]
  simpa using parseHexAux_toHexDigits 24 n 0 h

/-- Witness for C9 at a concrete identifier value. -/
theorem oid_string_roundtrip_witness :
    parseOid (strOfValue (Value.oid 123456789)) = some 123456789 :=
  oid_string_roundtrip 123456789 (by norm_num)

/-! ## Store availability, seeding and lookup -/

/-- C7: with the store available, looking up any string that does not
match the native identifier format fails with `NotFound` (HTTP 404) —
the conversion failure is swallowed and surfaces exactly as a missing
record, never as a format error or an internal failure. -/
theorem malformed_id_yields_not_found (s : MStore) (product_id : String)
    (h : parseOid product_id = none) :
    get_product (some s) product_id = Except.error Err.notFound := by
  simp [get_product, h]

/-- Witness for C7 at a concrete malformed identifier string. -/
theorem malformed_id_yields_not_found_witness :
    get_product (some ⟨[], 0⟩) "not-an-id" = Except.error Err.notFound :=
  malformed_id_yields_not_found ⟨[], 0⟩ "not-an-id" (by decide)

/-- C8 counterexample: the claim says every read operation on an
unavailable store returns an empty sequence rather than an error, but
the single-record lookup `GET /products/{id}` — a read — fails with
`ServiceUnavailable` (HTTP 503) when the store handle is `None`. -/
theorem get_product_unavailable_store_errors :
    get_product none "abcdefabcdefabcdefabcdef" =
      Except.error Err.serviceUnavailable := rfl

/-- C8 (amended): when the store handle is the `None` sentinel, the
listing read returns the empty sequence and leaves the (absent) store
untouched, while the create write and the single-record lookup both
fail with `ServiceUnavailable` (HTTP 503). -/
theorem unavailable_store_behavior :
    list_products none = (some [], none) ∧
    (∀ p : ProductIn,
      create_product none p = Except.error Err.serviceUnavailable) ∧
    (∀ pid : String,
      get_product none pid = Except.error Err.serviceUnavailable) :=
  ⟨rfl, fun _ => rfl, fun _ => rfl⟩

/-- C5: the seed initializer runs exactly when a listing observes zero
records — a listing of a nonempty collection returns the normalized
records and leaves the store untouched (so once any Product exists the
initializer never runs again), while a listing of an empty collection
inserts exactly the three fixed demo documents (acquiring consecutive
store-assigned identifiers), re-reads the collection for its response,
and leaves a 3-record store on which a further listing no longer
seeds. -/
theorem seed_runs_iff_empty (s : MStore) :
    (s.docs ≠ [] →
      list_products (some s) = (s.docs.mapM formatProduct, some s)) ∧
    (s.docs = [] →
      list_products (some s) =
        ((seed.foldl create_document s).docs.mapM formatProduct,
          some (seed.foldl create_document s)) ∧
      (seed.foldl create_document s).docs =
        [seed0.set "_id" (.oid s.next), seed1.set "_id" (.oid (s.next + 1)),
          seed2.set "_id" (.oid (s.next + 2))] ∧
      (seed.foldl create_document s).docs.length = 3 ∧
      (list_products (some (seed.foldl create_document s))).2 =
        some (seed.foldl create_document s)) := by
  obtain ⟨docs, next⟩ := s
  constructor
  · intro hne
    have h0 : ¬docs.length = 0 := by
      simpa [List.length_eq_zero] using hne
    simp only [list_products, get_documents, h0, if_false]
  · intro he
    subst he
    exact ⟨rfl, rfl, rfl, rfl⟩

/-- Witness for C5: seeding an empty store yields 3 records; a listing
of a nonempty store changes nothing. -/
theorem seed_runs_iff_empty_witness :
    (seed.foldl create_document ⟨[], 0⟩).docs.length = 3 ∧
    list_products (some ⟨[[("title", Value.str "x")]], 5⟩) =
      (([[("title", Value.str "x")]] : List Doc).mapM formatProduct,
        some ⟨[[("title", Value.str "x")]], 5⟩) :=
  ⟨((seed_runs_iff_empty ⟨[], 0⟩).2 rfl).2.2.1,
    (seed_runs_iff_empty ⟨[[("title", Value.str "x")]], 5⟩).1 (by decide)⟩

/-- C6 (refuted by the code): the seeding inside `list_products` is a
naive check-then-insert; under the interleaving in which two concurrent
listing calls both perform the emptiness check before either inserts,
both calls seed, and the collection ends with 3 x 2 = 6 records rather
than the 3 the claim requires. -/
theorem concurrent_seeding_duplicates :
    (runSched ⟨[], 0⟩ [.idle, .idle] [0, 1, 0, 1]).1.docs.length = 6 ∧
    ¬(runSched ⟨[], 0⟩ [.idle, .idle] [0, 1, 0, 1]).1.docs.length = 3 := by
  decide
